import Mathlib

/-!
# Verification of the `rust_backtester` CSV transformer

Shallow embedding of `src/rust_backtester/src/main.rs`.

The program is a single `main` function:
* parse CLI arguments (`--input <path> --output <path>`, exactly);
* open the input CSV, create the output file;
* write the single `pnl` header record;
* read the input header record and branch once:
  - replay mode when some header cell equals `"portfolio"`: each row is
    deserialized as `ReplayRow { portfolio: f64 }` and `portfolio` is
    copied to the output;
  - score mode otherwise: each row is deserialized as
    `RustRow { mom_score: f64, rev_score: f64 }` and
    `mom_score + rev_score` is written;
* flush and return `Ok(())`.

Numeric cell values (`f64` in the source) are modelled as rationals `ℚ`;
the claims under study are about data flow (pass-through and the sum the
code itself computes), not about binary floating-point rounding.  A CSV
cell is either a numeric value or a non-numeric raw string (serde fails
to deserialize an `f64` from the latter).  The `csv` crate is used with
its default (non-flexible) reader, so a data record whose field count
differs from the header's is a read error; deserialization by serde
looks fields up by header name and ignores all other columns.
-/

/-- A CSV data cell: numeric (a successfully parsed `f64`, modelled as `ℚ`)
or a raw string that does not parse as a number. -/
inductive Cell where
  | num (q : ℚ)
  | raw (s : String)
deriving DecidableEq

/-- A data record: the list of its cells, in column order. -/
abbrev Row := List Cell

/-- A parsed input CSV: header record plus data records. -/
structure CsvInput where
  header : List String
  rows : List Row
deriving DecidableEq

/-- Field lookup by header name, as serde+csv do it: the cell of the first
column whose header equals `name`. -/
def getField (header : List String) (row : Row) (name : String) : Option Cell :=
  match header.indexOf? name with
  | some i => row.get? i
  | none => none

/-- The numeric value of a looked-up cell, if any. -/
def cellNum : Option Cell → Option ℚ
  | some (Cell.num q) => some q
  | _ => none

/-- `ReplayRow { portfolio: f64 }` deserialization: the record must have as
many fields as the header (default non-flexible reader) and a numeric
`portfolio` field; all other columns are ignored. -/
def deserializeReplay (header : List String) (row : Row) : Option ℚ :=
  if row.length = header.length then
    cellNum (getField header row "portfolio")
  else
    none

/-- `RustRow { mom_score: f64, rev_score: f64 }` deserialization: the record
must have as many fields as the header and numeric `mom_score` and
`rev_score` fields; all other columns are ignored. -/
def deserializeScore (header : List String) (row : Row) : Option (ℚ × ℚ) :=
  if row.length = header.length then
    match cellNum (getField header row "mom_score"),
          cellNum (getField header row "rev_score") with
    | some m, some r => some (m, r)
    | _, _ => none
  else
    none

/-- The stubbed "real P&L" computation: `let pnl = row.mom_score + row.rev_score`. -/
def scorePnl (p : ℚ × ℚ) : ℚ := p.1 + p.2

/-- `headers.iter().any(|h| h == "portfolio")`. -/
def hasPortfolio (header : List String) : Bool :=
  header.any (fun h => h == "portfolio")

/-- The two processing modes. -/
inductive Mode where
  | replay
  | score
deriving DecidableEq

/-- Mode selection: replay when some header cell equals `"portfolio"`,
score otherwise.  A function of the header record alone. -/
def detectMode (header : List String) : Mode :=
  if hasPortfolio header then Mode.replay else Mode.score

/-- One deserialize-and-process loop (`for result in rdr.deserialize()`):
rows are processed in order, each produced value is written immediately,
and the first failing row aborts the loop (`result?`).  Returns the values
written in order and whether the loop completed without error. -/
def processRows (f : Row → Option ℚ) : List Row → List ℚ × Bool
  | [] => ([], true)
  | r :: rs =>
    match f r with
    | none => ([], false)
    | some q =>
      let rest := processRows f rs
      (q :: rest.1, rest.2)

/-- Per-row pnl computation of the branch `main` selects:
replay mode copies `portfolio`, score mode sums the two scores. -/
def rowProc (header : List String) : Row → Option ℚ :=
  if hasPortfolio header then
    fun r => deserializeReplay header r
  else
    fun r => (deserializeScore header r).map scorePnl

/-- The row-processing phase of `main` on a parsed input: branch once on the
header, then run the corresponding loop. -/
def runCsv (csv : CsvInput) : List ℚ × Bool :=
  if hasPortfolio csv.header then
    processRows (fun r => deserializeReplay csv.header r) csv.rows
  else
    processRows (fun r => (deserializeScore csv.header r).map scorePnl) csv.rows

/-- Observable I/O events of a run, in program order. -/
inductive Event where
  | openInput
  | createOutput
  | writeHeader
  | readHeaders
  | writeRow (q : ℚ)
  | flush
deriving DecidableEq

/-- The file-system environment of a run: the parsed input file when it can
be opened, and whether the output file can be created. -/
structure Env where
  input : Option CsvInput
  outputCreatable : Bool

/-- Result of a run: process exit code, whether the usage message was
printed to stderr, and the I/O trace. -/
structure RunOutcome where
  exitCode : Nat
  usageError : Bool
  trace : List Event
deriving DecidableEq

/-- `args.len() == 5 && args[1] == "--input" && args[3] == "--output"`
(the source tests the negation and exits). -/
def argsOk (args : List String) : Bool :=
  args.length == 5 && args.get? 1 == some "--input" && args.get? 3 == some "--output"

/-- The whole of `main`, over the argument vector (program name included)
and the environment.  On a usage error the program exits 1 before touching
any file.  `File::open` on the input precedes `File::create` on the output;
the `pnl` header record is written before the input headers are read
(`wtr.write_record(&["pnl"])` is step 3, `rdr.headers()` step 4); then the
selected loop writes one record per successfully processed input row, and
on success the writer is flushed and `main` returns `Ok(())` (exit 0).
Any `Err` propagated by `?` makes the process exit 1. -/
def mainRun (args : List String) (env : Env) : RunOutcome :=
  if argsOk args then
    match env.input with
    | none => ⟨1, false, []⟩
    | some csv =>
      if env.outputCreatable then
        let res := runCsv csv
        let pre := [Event.openInput, Event.createOutput, Event.writeHeader,
                    Event.readHeaders]
        if res.2 then
          ⟨0, false, pre ++ res.1.map Event.writeRow ++ [Event.flush]⟩
        else
          ⟨1, false, pre ++ res.1.map Event.writeRow⟩
      else
        ⟨1, false, [Event.openInput]⟩
  else
    ⟨1, true, []⟩

/-- The pnl values actually written into the output file, in order. -/
def writtenPnls (o : RunOutcome) : List ℚ :=
  o.trace.filterMap (fun e =>
    match e with
    | Event.writeRow q => some q
    | _ => none)

/-- Was the output file created (hence truncated/overwritten)? -/
def outputCreated (o : RunOutcome) : Bool :=
  o.trace.contains Event.createOutput

/-- Abstract content of the output file when it was created: the single
header cell `"pnl"` and the written values. -/
def outputContent (o : RunOutcome) : Option (String × List ℚ) :=
  if outputCreated o then some ("pnl", writtenPnls o) else none

/-- Index of the first occurrence of an event in a trace. -/
def eventPos (t : List Event) (e : Event) : Option Nat :=
  t.findIdx? (fun x => x == e)

/-- Does `e1` occur in the trace strictly before (the first occurrence of) `e2`? -/
def eventBefore (t : List Event) (e1 e2 : Event) : Bool :=
  match eventPos t e1, eventPos t e2 with
  | some i, some j => i < j
  | _, _ => false

/-! ## Helper lemmas about the processing loop -/

lemma processRows_all_some (f : Row → Option ℚ) (rows : List Row)
    (hv : ∀ r ∈ rows, (f r).isSome = true) :
    processRows f rows = (rows.filterMap f, true) := by
  induction rows with
  | nil => rfl
  | cons r rs ih =>
    obtain ⟨q, hq⟩ := Option.isSome_iff_exists.mp (hv r (by simp))
    have ih' := ih (fun x hx => hv x (by simp [hx]))
    simp [processRows, hq, ih', List.filterMap_cons]

lemma processRows_first_err (f : Row → Option ℚ) (bad : Row) (post : List Row)
    (hbad : f bad = none) (pre : List Row)
    (hpre : ∀ r ∈ pre, (f r).isSome = true) :
    processRows f (pre ++ bad :: post) = (pre.filterMap f, false) := by
  induction pre with
  | nil => simp [processRows, hbad]
  | cons r rs ih =>
    obtain ⟨q, hq⟩ := Option.isSome_iff_exists.mp (hpre r (by simp))
    have ih' := ih (fun x hx => hpre x (by simp [hx]))
    simp [processRows, hq, ih', List.filterMap_cons]

lemma filterMap_getElem?_all_some (f : Row → Option ℚ) (rows : List Row)
    (hv : ∀ r ∈ rows, (f r).isSome = true) (i : Nat) :
    (rows.filterMap f)[i]? = (rows[i]?).bind f := by
  induction rows generalizing i with
  | nil => simp
  | cons r rs ih =>
    obtain ⟨q, hq⟩ := Option.isSome_iff_exists.mp (hv r (by simp))
    have ih' := ih (fun x hx => hv x (by simp [hx]))
    cases i with
    | zero => simp [List.filterMap_cons, hq]
    | succ j => simp [List.filterMap_cons, hq, ih']

lemma processRows_congr (f g : Row → Option ℚ) (rows rows' : List Row)
    (hlen : rows.length = rows'.length)
    (hfg : ∀ (i : Nat) (r r' : Row),
      rows[i]? = some r → rows'[i]? = some r' → f r = g r') :
    processRows f rows = processRows g rows' := by
  induction rows generalizing rows' with
  | nil =>
    cases rows' with
    | nil => rfl
    | cons r' rs' => simp at hlen
  | cons r rs ih =>
    cases rows' with
    | nil => simp at hlen
    | cons r' rs' =>
      have h0 : f r = g r' := hfg 0 r r' (by simp) (by simp)
      have ih' := ih rs' (by simpa using hlen)
        (fun i a a' ha ha' => hfg (i + 1) a a' (by simpa using ha) (by simpa using ha'))
      simp only [processRows, h0, ih']

/-! ## Helper lemmas about `runCsv` and `mainRun` -/

lemma runCsv_replay (csv : CsvInput) (hp : hasPortfolio csv.header = true) :
    runCsv csv = processRows (fun r => deserializeReplay csv.header r) csv.rows := by
  simp [runCsv, hp]

lemma runCsv_score (csv : CsvInput) (hp : hasPortfolio csv.header = false) :
    runCsv csv
      = processRows (fun r => (deserializeScore csv.header r).map scorePnl) csv.rows := by
  simp [runCsv, hp]

lemma runCsv_rowProc (csv : CsvInput) :
    runCsv csv = processRows (rowProc csv.header) csv.rows := by
  unfold runCsv rowProc
  cases h : hasPortfolio csv.header <;> simp [h]

lemma mainRun_run (args : List String) (env : Env) (csv : CsvInput)
    (h1 : argsOk args = true) (h2 : env.input = some csv)
    (h3 : env.outputCreatable = true) :
    mainRun args env =
      if (runCsv csv).2 then
        ⟨0, false, [Event.openInput, Event.createOutput, Event.writeHeader,
          Event.readHeaders] ++ (runCsv csv).1.map Event.writeRow ++ [Event.flush]⟩
      else
        ⟨1, false, [Event.openInput, Event.createOutput, Event.writeHeader,
          Event.readHeaders] ++ (runCsv csv).1.map Event.writeRow⟩ := by
  simp only [mainRun, h1, h2, h3, if_true]

lemma filterMap_writeRow (vals : List ℚ) :
    (vals.map Event.writeRow).filterMap (fun e =>
      match e with
      | Event.writeRow q => some q
      | _ => none) = vals := by
  induction vals with
  | nil => rfl
  | cons q qs ih => simp only [List.map_cons, List.filterMap_cons, ih]

lemma writtenPnls_run (ec : Nat) (ue : Bool) (vals : List ℚ) (tail : List Event) :
    writtenPnls ⟨ec, ue, [Event.openInput, Event.createOutput, Event.writeHeader,
      Event.readHeaders] ++ vals.map Event.writeRow ++ tail⟩
      = vals ++ writtenPnls ⟨ec, ue, tail⟩ := by
  simp only [writtenPnls, List.filterMap_append, filterMap_writeRow]
  rfl

lemma filterMap_length_all_some (f : Row → Option ℚ) (rows : List Row)
    (hv : ∀ r ∈ rows, (f r).isSome = true) :
    (rows.filterMap f).length = rows.length := by
  induction rows with
  | nil => rfl
  | cons r rs ih =>
    obtain ⟨q, hq⟩ := Option.isSome_iff_exists.mp (hv r (by simp))
    have ih' := ih (fun x hx => hv x (by simp [hx]))
    simp [List.filterMap_cons, hq, ih']

lemma hasPortfolio_iff (h : List String) : hasPortfolio h = true ↔ "portfolio" ∈ h := by
  simp [hasPortfolio, List.any_eq_true]

/-! ## Claims -/

lemma writtenPnls_run_noflush (ec : Nat) (ue : Bool) (vals : List ℚ) :
    writtenPnls ⟨ec, ue, [Event.openInput, Event.createOutput, Event.writeHeader,
      Event.readHeaders] ++ vals.map Event.writeRow⟩ = vals := by
  simp only [writtenPnls, List.filterMap_append, filterMap_writeRow]
  rfl

/-- C1: for every valid replay-mode input (header containing `portfolio`,
every data row deserializable as a `ReplayRow`, i.e. with a numeric
`portfolio` field) and any well-formed command line, the run succeeds
(exit code 0), the output has exactly one `pnl` row per input data row,
and the i-th written `pnl` value is exactly the i-th row's `portfolio`
value. -/
theorem C1_replay_passthrough (args : List String) (h : List String) (rows : List Row)
    (ha : argsOk args = true)
    (hp : hasPortfolio h = true)
    (hv : ∀ r ∈ rows, (deserializeReplay h r).isSome = true) :
    (mainRun args ⟨some ⟨h, rows⟩, true⟩).exitCode = 0 ∧
    (writtenPnls (mainRun args ⟨some ⟨h, rows⟩, true⟩)).length = rows.length ∧
    ∀ i : Nat, (writtenPnls (mainRun args ⟨some ⟨h, rows⟩, true⟩))[i]?
      = (rows[i]?).bind (deserializeReplay h) := by
  have hrun : runCsv ⟨h, rows⟩ = (rows.filterMap (deserializeReplay h), true) := by
    rw [runCsv_replay ⟨h, rows⟩ hp]
    exact processRows_all_some _ _ hv
  have hmain := mainRun_run args ⟨some ⟨h, rows⟩, true⟩ ⟨h, rows⟩ ha rfl rfl
  rw [hrun] at hmain
  simp only [if_true] at hmain
  rw [hmain, writtenPnls_run]
  have htail : writtenPnls ⟨0, false, [Event.flush]⟩ = [] := rfl
  rw [htail, List.append_nil]
  exact ⟨rfl, filterMap_length_all_some _ _ hv,
    fun i => filterMap_getElem?_all_some _ _ hv i⟩

/-- Witness for C1 at a concrete input: header `portfolio`, rows `3` and `2`. -/
theorem C1_witness :
    argsOk ["prog", "--input", "a.csv", "--output", "b.csv"] = true ∧
    hasPortfolio ["portfolio"] = true ∧
    (∀ r ∈ [[Cell.num 3], [Cell.num 2]],
      (deserializeReplay ["portfolio"] r).isSome = true) ∧
    ((mainRun ["prog", "--input", "a.csv", "--output", "b.csv"]
        ⟨some ⟨["portfolio"], [[Cell.num 3], [Cell.num 2]]⟩, true⟩).exitCode = 0 ∧
      (writtenPnls (mainRun ["prog", "--input", "a.csv", "--output", "b.csv"]
        ⟨some ⟨["portfolio"], [[Cell.num 3], [Cell.num 2]]⟩, true⟩)).length
          = ([[Cell.num 3], [Cell.num 2]] : List Row).length ∧
      ∀ i : Nat, (writtenPnls (mainRun ["prog", "--input", "a.csv", "--output", "b.csv"]
        ⟨some ⟨["portfolio"], [[Cell.num 3], [Cell.num 2]]⟩, true⟩))[i]?
          = (([[Cell.num 3], [Cell.num 2]] : List Row)[i]?).bind
              (deserializeReplay ["portfolio"])) :=
  ⟨by decide, by decide, by decide,
    C1_replay_passthrough ["prog", "--input", "a.csv", "--output", "b.csv"]
      ["portfolio"] [[Cell.num 3], [Cell.num 2]] (by decide) (by decide) (by decide)⟩

/-- C2: for every valid score-mode input (no `portfolio` header, every data
row deserializable as a `RustRow`, i.e. with numeric `mom_score` and
`rev_score` fields) and any well-formed command line, the run succeeds,
the output has one `pnl` row per input data row in order, and the i-th
written `pnl` value is `mom_score + rev_score` of the i-th input row. -/
theorem C2_score_sum (args : List String) (h : List String) (rows : List Row)
    (ha : argsOk args = true)
    (hp : hasPortfolio h = false)
    (hv : ∀ r ∈ rows, (deserializeScore h r).isSome = true) :
    (mainRun args ⟨some ⟨h, rows⟩, true⟩).exitCode = 0 ∧
    (writtenPnls (mainRun args ⟨some ⟨h, rows⟩, true⟩)).length = rows.length ∧
    ∀ i : Nat, (writtenPnls (mainRun args ⟨some ⟨h, rows⟩, true⟩))[i]?
      = ((rows[i]?).bind (deserializeScore h)).map (fun p => p.1 + p.2) := by
  have hv' : ∀ r ∈ rows, ((deserializeScore h r).map scorePnl).isSome = true := by
    intro r hr
    simpa [Option.isSome_map] using hv r hr
  have hrun : runCsv ⟨h, rows⟩
      = (rows.filterMap (fun r => (deserializeScore h r).map scorePnl), true) := by
    rw [runCsv_score ⟨h, rows⟩ hp]
    exact processRows_all_some _ _ hv'
  have hmain := mainRun_run args ⟨some ⟨h, rows⟩, true⟩ ⟨h, rows⟩ ha rfl rfl
  rw [hrun] at hmain
  simp only [if_true] at hmain
  rw [hmain, writtenPnls_run]
  have htail : writtenPnls ⟨0, false, [Event.flush]⟩ = [] := rfl
  rw [htail, List.append_nil]
  refine ⟨rfl, filterMap_length_all_some _ _ hv', ?_⟩
  intro i
  rw [filterMap_getElem?_all_some _ _ hv' i]
  cases rows[i]? with
  | none => rfl
  | some r =>
    cases deserializeScore h r with
    | none => rfl
    | some p => rfl

/-- Witness for C2 at a concrete input: rows `(1,2)` and `(-1,1/2)`. -/
theorem C2_witness :
    argsOk ["prog", "--input", "a.csv", "--output", "b.csv"] = true ∧
    hasPortfolio ["mom_score", "rev_score"] = false ∧
    (∀ r ∈ [[Cell.num 1, Cell.num 2]],
      (deserializeScore ["mom_score", "rev_score"] r).isSome = true) ∧
    ((mainRun ["prog", "--input", "a.csv", "--output", "b.csv"]
        ⟨some ⟨["mom_score", "rev_score"], [[Cell.num 1, Cell.num 2]]⟩, true⟩).exitCode = 0 ∧
      (writtenPnls (mainRun ["prog", "--input", "a.csv", "--output", "b.csv"]
        ⟨some ⟨["mom_score", "rev_score"], [[Cell.num 1, Cell.num 2]]⟩, true⟩)).length
          = ([[Cell.num 1, Cell.num 2]] : List Row).length ∧
      ∀ i : Nat, (writtenPnls (mainRun ["prog", "--input", "a.csv", "--output", "b.csv"]
        ⟨some ⟨["mom_score", "rev_score"], [[Cell.num 1, Cell.num 2]]⟩, true⟩))[i]?
          = ((([[Cell.num 1, Cell.num 2]] : List Row)[i]?).bind
              (deserializeScore ["mom_score", "rev_score"])).map (fun p => p.1 + p.2)) :=
  ⟨by decide, by decide, by decide,
    C2_score_sum ["prog", "--input", "a.csv", "--output", "b.csv"]
      ["mom_score", "rev_score"] [[Cell.num 1, Cell.num 2]]
      (by decide) (by decide) (by decide)⟩

/-- C3: mode selection is a function of the header row only: replay mode is
selected exactly when some header cell literally equals `portfolio`
(so replay wins when both `portfolio` and the score columns are present),
and the whole-file processing is determined by that one decision, for every
row list (any values, any count, including zero rows). -/
theorem C3_mode_from_header_only (h : List String) (rows : List Row) :
    (detectMode h = Mode.replay ↔ "portfolio" ∈ h) ∧
    runCsv ⟨h, rows⟩ =
      (match detectMode h with
       | Mode.replay => processRows (fun r => deserializeReplay h r) rows
       | Mode.score => processRows (fun r => (deserializeScore h r).map scorePnl) rows) := by
  constructor
  · rw [← hasPortfolio_iff]
    unfold detectMode
    cases hp : hasPortfolio h <;> simp
  · unfold detectMode
    cases hp : hasPortfolio h <;> simp [runCsv, hp]

/-- C4 counterexample: on a concrete well-formed run (header `portfolio`,
no data rows) the input headers are NOT read before the `pnl` header is
written; in fact the `pnl` header write strictly precedes the header read,
and the input is opened before any write.  This refutes the claimed order
"read input headers, then write the `pnl` header". -/
theorem C4_counterexample :
    eventBefore (mainRun ["prog", "--input", "a.csv", "--output", "b.csv"]
        ⟨some ⟨["portfolio"], []⟩, true⟩).trace
      Event.readHeaders Event.writeHeader = false ∧
    eventBefore (mainRun ["prog", "--input", "a.csv", "--output", "b.csv"]
        ⟨some ⟨["portfolio"], []⟩, true⟩).trace
      Event.writeHeader Event.readHeaders = true := by
  decide

/-- C4 (amended): the program opens the input file, then creates the output
file, then writes the single `pnl` header, and only after that reads the
input's column headers (choosing the mode); then it writes one output row
per successfully processed input row, and flushes exactly when every row
succeeded. -/
theorem C4_step_order (args : List String) (env : Env) (csv : CsvInput)
    (h1 : argsOk args = true) (h2 : env.input = some csv)
    (h3 : env.outputCreatable = true) :
    (mainRun args env).trace
      = [Event.openInput, Event.createOutput, Event.writeHeader, Event.readHeaders]
        ++ (runCsv csv).1.map Event.writeRow
        ++ (if (runCsv csv).2 then [Event.flush] else []) := by
  rw [mainRun_run args env csv h1 h2 h3]
  cases hok : (runCsv csv).2 <;> simp [hok]

/-- Witness for the amended C4 at a concrete input. -/
theorem C4_witness :
    argsOk ["prog", "--input", "a.csv", "--output", "b.csv"] = true ∧
    (mainRun ["prog", "--input", "a.csv", "--output", "b.csv"]
        ⟨some ⟨["portfolio"], [[Cell.num 3]]⟩, true⟩).trace
      = [Event.openInput, Event.createOutput, Event.writeHeader, Event.readHeaders]
        ++ (runCsv ⟨["portfolio"], [[Cell.num 3]]⟩).1.map Event.writeRow
        ++ (if (runCsv ⟨["portfolio"], [[Cell.num 3]]⟩).2 then [Event.flush] else []) :=
  ⟨by decide,
    C4_step_order ["prog", "--input", "a.csv", "--output", "b.csv"]
      ⟨some ⟨["portfolio"], [[Cell.num 3]]⟩, true⟩ ⟨["portfolio"], [[Cell.num 3]]⟩
      (by decide) rfl rfl⟩

/-- C5: the first row that fails to deserialize in the detected mode aborts
the run with a non-zero exit code; exactly the rows before it have been
written (they are not rolled back), and no later row is processed or
written, whatever the later rows contain. -/
theorem C5_first_error_aborts (h : List String) (pre post : List Row) (bad : Row)
    (args : List String) (ha : argsOk args = true)
    (hpre : ∀ r ∈ pre, (rowProc h r).isSome = true)
    (hbad : rowProc h bad = none) :
    (mainRun args ⟨some ⟨h, pre ++ bad :: post⟩, true⟩).exitCode = 1 ∧
    writtenPnls (mainRun args ⟨some ⟨h, pre ++ bad :: post⟩, true⟩)
      = pre.filterMap (rowProc h) ∧
    (writtenPnls (mainRun args ⟨some ⟨h, pre ++ bad :: post⟩, true⟩)).length
      = pre.length := by
  have hrun : runCsv ⟨h, pre ++ bad :: post⟩ = (pre.filterMap (rowProc h), false) := by
    rw [runCsv_rowProc]
    exact processRows_first_err _ _ _ hbad _ hpre
  have hmain := mainRun_run args ⟨some ⟨h, pre ++ bad :: post⟩, true⟩
    ⟨h, pre ++ bad :: post⟩ ha rfl rfl
  rw [hrun] at hmain
  simp only [Bool.false_eq_true, if_false] at hmain
  rw [hmain, writtenPnls_run_noflush]
  exact ⟨rfl, rfl, filterMap_length_all_some _ _ hpre⟩

/-- Witness for C5: a replay-mode file whose second row has a non-numeric
`portfolio` cell; only the first row's value is written. -/
theorem C5_witness :
    argsOk ["prog", "--input", "a.csv", "--output", "b.csv"] = true ∧
    (∀ r ∈ [[Cell.num 3]], (rowProc ["portfolio"] r).isSome = true) ∧
    rowProc ["portfolio"] [Cell.raw "oops"] = none ∧
    ((mainRun ["prog", "--input", "a.csv", "--output", "b.csv"]
        ⟨some ⟨["portfolio"],
          [[Cell.num 3]] ++ [Cell.raw "oops"] :: [[Cell.num 7]]⟩, true⟩).exitCode = 1 ∧
      writtenPnls (mainRun ["prog", "--input", "a.csv", "--output", "b.csv"]
        ⟨some ⟨["portfolio"],
          [[Cell.num 3]] ++ [Cell.raw "oops"] :: [[Cell.num 7]]⟩, true⟩)
        = ([[Cell.num 3]] : List Row).filterMap (rowProc ["portfolio"]) ∧
      (writtenPnls (mainRun ["prog", "--input", "a.csv", "--output", "b.csv"]
        ⟨some ⟨["portfolio"],
          [[Cell.num 3]] ++ [Cell.raw "oops"] :: [[Cell.num 7]]⟩, true⟩)).length
        = ([[Cell.num 3]] : List Row).length) :=
  ⟨by decide, by decide, by decide,
    C5_first_error_aborts ["portfolio"] [[Cell.num 3]] [[Cell.num 7]] [Cell.raw "oops"]
      ["prog", "--input", "a.csv", "--output", "b.csv"]
      (by decide) (by decide) (by decide)⟩

/-- C6: a command line that is not exactly
`<program> --input <path> --output <path>` makes the program print the
usage message to stderr and exit with status 1, with an empty I/O trace
(no output file created or written); and a run that passes the argument
check and processes every row successfully exits with status 0. -/
theorem C6_cli_check (args : List String) (env : Env) :
    (argsOk args = false →
      mainRun args env = ⟨1, true, []⟩ ∧
      outputCreated (mainRun args env) = false) ∧
    (∀ csv : CsvInput, argsOk args = true → env.input = some csv →
      env.outputCreatable = true → (runCsv csv).2 = true →
      (mainRun args env).exitCode = 0 ∧ (mainRun args env).usageError = false) := by
  constructor
  · intro hbad
    have hm : mainRun args env = ⟨1, true, []⟩ := by
      simp [mainRun, hbad]
    exact ⟨hm, by rw [hm]; rfl⟩
  · intro csv h1 h2 h3 hok
    rw [mainRun_run args env csv h1 h2 h3, hok]
    exact ⟨rfl, rfl⟩

/-- Witness for C6: a two-argument command line is rejected with usage and
exit 1 and no file events; a full well-formed run exits 0. -/
theorem C6_witness :
    (argsOk ["prog", "in.csv"] = false ∧
      mainRun ["prog", "in.csv"] ⟨some ⟨["portfolio"], []⟩, true⟩ = ⟨1, true, []⟩ ∧
      outputCreated (mainRun ["prog", "in.csv"] ⟨some ⟨["portfolio"], []⟩, true⟩) = false) ∧
    (argsOk ["prog", "--input", "a.csv", "--output", "b.csv"] = true ∧
      (runCsv ⟨["portfolio"], []⟩).2 = true ∧
      (mainRun ["prog", "--input", "a.csv", "--output", "b.csv"]
        ⟨some ⟨["portfolio"], []⟩, true⟩).exitCode = 0 ∧
      (mainRun ["prog", "--input", "a.csv", "--output", "b.csv"]
        ⟨some ⟨["portfolio"], []⟩, true⟩).usageError = false) :=
  ⟨⟨by decide,
    (C6_cli_check ["prog", "in.csv"] ⟨some ⟨["portfolio"], []⟩, true⟩).1 (by decide)⟩,
   ⟨by decide, by decide,
    (C6_cli_check ["prog", "--input", "a.csv", "--output", "b.csv"]
      ⟨some ⟨["portfolio"], []⟩, true⟩).2 ⟨["portfolio"], []⟩
      (by decide) rfl rfl (by decide)⟩⟩

lemma outputCreated_run (ec : Nat) (ue : Bool) (rest : List Event) :
    outputCreated ⟨ec, ue, [Event.openInput, Event.createOutput, Event.writeHeader,
      Event.readHeaders] ++ rest⟩ = true := by
  simp [outputCreated]

lemma runCsv_nil (h : List String) : runCsv ⟨h, []⟩ = ([], true) := by
  unfold runCsv
  cases hp : hasPortfolio h <;> rfl

/-- C7: whenever the argument check passes and both files are reachable, the
output file content begins with the single header cell `pnl`; with zero
data rows the output is exactly the header line and the run succeeds; and a
run that reports success (exit 0) has flushed the output as its final
action. -/
theorem C7_header_empty_flush (args : List String) (env : Env) (csv : CsvInput)
    (h1 : argsOk args = true) (h2 : env.input = some csv)
    (h3 : env.outputCreatable = true) :
    (outputContent (mainRun args env)).map Prod.fst = some "pnl" ∧
    (csv.rows = [] →
      outputContent (mainRun args env) = some ("pnl", []) ∧
      (mainRun args env).exitCode = 0) ∧
    ((mainRun args env).exitCode = 0 →
      (mainRun args env).trace.getLast? = some Event.flush) := by
  have hmain := mainRun_run args env csv h1 h2 h3
  refine ⟨?_, ?_, ?_⟩
  · rw [hmain]
    cases hok : (runCsv csv).2 <;>
      simp [hok, outputContent, outputCreated]
  · intro hnil
    have hrun : runCsv csv = ([], true) := by
      have hc : csv = ⟨csv.header, []⟩ := by cases csv; simp_all
      rw [hc, runCsv_nil]
    rw [hrun] at hmain
    simp only [if_true] at hmain
    rw [hmain]
    exact ⟨rfl, rfl⟩
  · intro hzero
    rw [hmain] at hzero ⊢
    cases hok : (runCsv csv).2
    · rw [hok] at hzero
      simp at hzero
    · show (([Event.openInput, Event.createOutput, Event.writeHeader,
          Event.readHeaders] ++ (runCsv csv).1.map Event.writeRow)
            ++ [Event.flush]).getLast? = some Event.flush
      exact List.getLast?_concat _

/-- Witness for C7 at a concrete input with zero data rows. -/
theorem C7_witness :
    argsOk ["prog", "--input", "a.csv", "--output", "b.csv"] = true ∧
    ((outputContent (mainRun ["prog", "--input", "a.csv", "--output", "b.csv"]
        ⟨some ⟨["mom_score", "rev_score"], []⟩, true⟩)).map Prod.fst = some "pnl" ∧
      outputContent (mainRun ["prog", "--input", "a.csv", "--output", "b.csv"]
        ⟨some ⟨["mom_score", "rev_score"], []⟩, true⟩) = some ("pnl", []) ∧
      (mainRun ["prog", "--input", "a.csv", "--output", "b.csv"]
        ⟨some ⟨["mom_score", "rev_score"], []⟩, true⟩).trace.getLast?
          = some Event.flush) :=
  ⟨by decide,
    have h := C7_header_empty_flush ["prog", "--input", "a.csv", "--output", "b.csv"]
      ⟨some ⟨["mom_score", "rev_score"], []⟩, true⟩ ⟨["mom_score", "rev_score"], []⟩
      (by decide) rfl rfl
    ⟨h.1, (h.2.1 rfl).1, h.2.2 (h.2.1 rfl).2⟩⟩

lemma detectMode_replay_iff (h : List String) :
    detectMode h = Mode.replay ↔ hasPortfolio h = true := by
  unfold detectMode
  cases hp : hasPortfolio h <;> simp

lemma detectMode_score_iff (h : List String) :
    detectMode h = Mode.score ↔ hasPortfolio h = false := by
  unfold detectMode
  cases hp : hasPortfolio h <;> simp

lemma rowProc_replay (h : List String) (hp : hasPortfolio h = true) :
    rowProc h = fun r => deserializeReplay h r := by
  simp [rowProc, hp]

lemma rowProc_score (h : List String) (hp : hasPortfolio h = false) :
    rowProc h = fun r => (deserializeScore h r).map scorePnl := by
  simp [rowProc, hp]

lemma deserializeReplay_congr (h h' : List String) (r r' : Row)
    (hv : (deserializeReplay h r).isSome = true)
    (hv' : (deserializeReplay h' r').isSome = true)
    (hf : getField h r "portfolio" = getField h' r' "portfolio") :
    deserializeReplay h r = deserializeReplay h' r' := by
  by_cases hl : r.length = h.length
  · by_cases hl' : r'.length = h'.length
    · simp [deserializeReplay, hl, hl', hf]
    · simp [deserializeReplay, hl'] at hv'
  · simp [deserializeReplay, hl] at hv

lemma deserializeScore_congr (h h' : List String) (r r' : Row)
    (hv : (deserializeScore h r).isSome = true)
    (hv' : (deserializeScore h' r').isSome = true)
    (hm : getField h r "mom_score" = getField h' r' "mom_score")
    (hr : getField h r "rev_score" = getField h' r' "rev_score") :
    deserializeScore h r = deserializeScore h' r' := by
  by_cases hl : r.length = h.length
  · by_cases hl' : r'.length = h'.length
    · simp [deserializeScore, hl, hl', hm, hr]
    · simp [deserializeScore, hl'] at hv'
  · simp [deserializeScore, hl] at hv

/-- C8: columns other than those the detected mode requires are ignored:
two valid inputs that select the same mode, have the same number of data
rows, and agree row-by-row on the detected mode's required fields
(`portfolio` for replay mode; `mom_score` and `rev_score` for score mode)
produce the same processing result, whatever their other columns hold. -/
theorem C8_extra_columns_ignored (h h' : List String) (rows rows' : List Row)
    (hmode : detectMode h = detectMode h')
    (hlen : rows.length = rows'.length)
    (hv : ∀ r ∈ rows, (rowProc h r).isSome = true)
    (hv' : ∀ r ∈ rows', (rowProc h' r).isSome = true)
    (hreq : ∀ (i : Nat) (r r' : Row), rows[i]? = some r → rows'[i]? = some r' →
      (match detectMode h with
       | Mode.replay => getField h r "portfolio" = getField h' r' "portfolio"
       | Mode.score =>
           getField h r "mom_score" = getField h' r' "mom_score" ∧
           getField h r "rev_score" = getField h' r' "rev_score")) :
    runCsv ⟨h, rows⟩ = runCsv ⟨h', rows'⟩ := by
  rw [runCsv_rowProc, runCsv_rowProc]
  apply processRows_congr _ _ _ _ hlen
  intro i r r' hr hr'
  have hvr := hv r (List.getElem?_mem hr)
  have hvr' := hv' r' (List.getElem?_mem hr')
  have hq := hreq i r r' hr hr'
  cases hm : detectMode h with
  | replay =>
    have hp : hasPortfolio h = true := (detectMode_replay_iff h).mp hm
    have hp' : hasPortfolio h' = true := (detectMode_replay_iff h').mp (hmode ▸ hm)
    rw [hm] at hq
    rw [rowProc_replay h hp] at hvr ⊢
    rw [rowProc_replay h' hp'] at hvr' ⊢
    exact deserializeReplay_congr h h' r r' hvr hvr' hq
  | score =>
    have hp : hasPortfolio h = false := (detectMode_score_iff h).mp hm
    have hp' : hasPortfolio h' = false := (detectMode_score_iff h').mp (hmode ▸ hm)
    rw [hm] at hq
    rw [rowProc_score h hp] at hvr ⊢
    rw [rowProc_score h' hp'] at hvr' ⊢
    show (deserializeScore h r).map scorePnl = (deserializeScore h' r').map scorePnl
    have hvs : (deserializeScore h r).isSome = true := by
      have hvr2 : ((deserializeScore h r).map scorePnl).isSome = true := hvr
      cases hds : deserializeScore h r
      · rw [hds] at hvr2
        simp at hvr2
      · rfl
    have hvs' : (deserializeScore h' r').isSome = true := by
      have hvr2 : ((deserializeScore h' r').map scorePnl).isSome = true := hvr'
      cases hds : deserializeScore h' r'
      · rw [hds] at hvr2
        simp at hvr2
      · rfl
    rw [deserializeScore_congr h h' r r' hvs hvs' hq.1 hq.2]

/-- Witness for C8: a bare `portfolio` file versus the same file with an
extra leading column; outputs agree. -/
theorem C8_witness :
    detectMode ["portfolio"] = detectMode ["note", "portfolio"] ∧
    (∀ r ∈ [[Cell.num 3]], (rowProc ["portfolio"] r).isSome = true) ∧
    (∀ r ∈ [[Cell.raw "x", Cell.num 3]],
      (rowProc ["note", "portfolio"] r).isSome = true) ∧
    runCsv ⟨["portfolio"], [[Cell.num 3]]⟩
      = runCsv ⟨["note", "portfolio"], [[Cell.raw "x", Cell.num 3]]⟩ :=
  ⟨by decide, by decide, by decide,
    C8_extra_columns_ignored ["portfolio"] ["note", "portfolio"]
      [[Cell.num 3]] [[Cell.raw "x", Cell.num 3]]
      (by decide) (by decide) (by decide) (by decide)
      (by
        intro i r r' hr hr'
        match i with
        | 0 =>
          simp only [List.getElem?_cons_zero, Option.some_inj] at hr hr'
          subst hr
          subst hr'
          exact (by decide :
            getField ["portfolio"] [Cell.num 3] "portfolio"
              = getField ["note", "portfolio"] [Cell.raw "x", Cell.num 3] "portfolio")
        | i + 1 =>
          simp at hr)⟩

/-- C9: when the input file cannot be opened (and the arguments are
well-formed), the run fails with exit code 1 and the trace is empty: in
particular the output file is never created, truncated or overwritten,
whether or not the output location would have been writable. -/
theorem C9_input_open_failure (args : List String) (b : Bool)
    (h1 : argsOk args = true) :
    mainRun args ⟨none, b⟩ = ⟨1, false, []⟩ ∧
    outputCreated (mainRun args ⟨none, b⟩) = false := by
  have hm : mainRun args ⟨none, b⟩ = ⟨1, false, []⟩ := by
    simp [mainRun, h1]
  exact ⟨hm, by rw [hm]; rfl⟩

/-- Witness for C9 at a concrete command line. -/
theorem C9_witness :
    argsOk ["prog", "--input", "a.csv", "--output", "b.csv"] = true ∧
    (mainRun ["prog", "--input", "a.csv", "--output", "b.csv"] ⟨none, true⟩
        = ⟨1, false, []⟩ ∧
      outputCreated (mainRun ["prog", "--input", "a.csv", "--output", "b.csv"]
        ⟨none, true⟩) = false) :=
  ⟨by decide,
    C9_input_open_failure ["prog", "--input", "a.csv", "--output", "b.csv"] true
      (by decide)⟩

/-- C10: replay-mode noninterference: two valid replay-mode inputs whose
rows carry the same sequence of `portfolio` values are processed to the
same result, and the whole program run on them (same command line) is
identical — no other column influences the output. -/
theorem C10_replay_noninterference (h h' : List String) (rows rows' : List Row)
    (hp : hasPortfolio h = true) (hp' : hasPortfolio h' = true)
    (hv : ∀ r ∈ rows, (deserializeReplay h r).isSome = true)
    (hv' : ∀ r ∈ rows', (deserializeReplay h' r).isSome = true)
    (hs : rows.filterMap (deserializeReplay h)
      = rows'.filterMap (deserializeReplay h')) :
    runCsv ⟨h, rows⟩ = runCsv ⟨h', rows'⟩ ∧
    ∀ args : List String,
      mainRun args ⟨some ⟨h, rows⟩, true⟩ = mainRun args ⟨some ⟨h', rows'⟩, true⟩ := by
  have e1 : runCsv ⟨h, rows⟩ = (rows.filterMap (deserializeReplay h), true) := by
    rw [runCsv_replay _ hp]
    exact processRows_all_some _ _ hv
  have e2 : runCsv ⟨h', rows'⟩ = (rows'.filterMap (deserializeReplay h'), true) := by
    rw [runCsv_replay _ hp']
    exact processRows_all_some _ _ hv'
  have he : runCsv ⟨h, rows⟩ = runCsv ⟨h', rows'⟩ := by
    rw [e1, e2, hs]
  refine ⟨he, fun args => ?_⟩
  by_cases ha : argsOk args = true
  · rw [mainRun_run args _ ⟨h, rows⟩ ha rfl rfl,
      mainRun_run args _ ⟨h', rows'⟩ ha rfl rfl, he]
  · have hb : argsOk args = false := by
      cases hx : argsOk args
      · rfl
      · exact absurd hx ha
    simp [mainRun, hb]

/-- Witness for C10: same `portfolio` values `3` under different extra
columns and headers; identical runs. -/
theorem C10_witness :
    hasPortfolio ["portfolio", "mom_score"] = true ∧
    hasPortfolio ["other", "portfolio"] = true ∧
    ([[Cell.num 3, Cell.raw "a"]] : List Row).filterMap
        (deserializeReplay ["portfolio", "mom_score"])
      = ([[Cell.num 9, Cell.num 3]] : List Row).filterMap
        (deserializeReplay ["other", "portfolio"]) ∧
    (runCsv ⟨["portfolio", "mom_score"], [[Cell.num 3, Cell.raw "a"]]⟩
        = runCsv ⟨["other", "portfolio"], [[Cell.num 9, Cell.num 3]]⟩ ∧
      ∀ args : List String,
        mainRun args ⟨some ⟨["portfolio", "mom_score"],
            [[Cell.num 3, Cell.raw "a"]]⟩, true⟩
          = mainRun args ⟨some ⟨["other", "portfolio"],
            [[Cell.num 9, Cell.num 3]]⟩, true⟩) :=
  ⟨by decide, by decide, by decide,
    C10_replay_noninterference ["portfolio", "mom_score"] ["other", "portfolio"]
      [[Cell.num 3, Cell.raw "a"]] [[Cell.num 9, Cell.num 3]]
      (by decide) (by decide) (by decide) (by decide) (by decide)⟩
